import Mathlib

/-!
Shallow embedding of the GENUSD UTXO engine
(src/phase2-genusd/genusd_engine.py) and verification of the
specification claims about it.

Modelling conventions:
- Python dict values that flow through the unvalidated output
  specifications are modelled by the `Value` type below; Python dicts are
  association lists with first-occurrence lookup and in-place update.
- A Python exception escaping the engine (KeyError / TypeError /
  ValueError) is modelled by the `Except PyExc` error case; a validation
  rejection is an `Except.ok` result whose success flag is `false`.
- The wall-clock date read by the daily-limit check is passed in as an
  explicit `today` parameter.
- Machine integers are Python arbitrary-precision ints, so amounts are
  `Int` with no overflow reduction.
- Rejection messages keep the wording of the source but interpolate raw
  cent amounts where the source formats them as two-decimal dollar
  strings; no claim depends on that formatting.
-/

namespace GENUSD

/-- A Python value as it appears inside transaction output specifications. -/
inductive Value where
  | vStr (s : String)
  | vInt (n : Int)
  | vBool (b : Bool)
  | vNone
  | vDict (d : List (String × Value))
deriving Repr

/-- A Python dict with string keys. -/
abbrev Dict := List (String × Value)

/-- A Python exception escaping the engine code. -/
inductive PyExc where
  | keyError (k : String)
  | typeError (msg : String)
  | valueError (msg : String)
deriving DecidableEq, Repr

/-- First-occurrence association-list lookup (Python dict subscript/get). -/
def dget {α : Type} (d : List (String × α)) (k : String) : Option α :=
  match d with
  | [] => none
  | (k', v) :: rest => if k' = k then some v else dget rest k

/-- Python dict assignment: update the existing key in place, else append. -/
def dset {α : Type} (d : List (String × α)) (k : String) (v : α) :
    List (String × α) :=
  match d with
  | [] => [(k, v)]
  | (k', v') :: rest =>
      if k' = k then (k, v) :: rest else (k', v') :: dset rest k v

/-- Python `==` between a runtime value and a string literal. -/
def eqStr (v : Value) (s : String) : Bool :=
  match v with
  | .vStr t => t = s
  | _ => false

/-- Python truthiness of a value. -/
def truthy (v : Value) : Bool :=
  match v with
  | .vStr s => s != ""
  | .vInt n => n != 0
  | .vBool b => b
  | .vNone => false
  | .vDict d => !d.isEmpty

/-- Coerce a value to an int as Python arithmetic would
(bool is an int subtype; anything else raises TypeError). -/
def asInt (v : Value) : Except PyExc Int :=
  match v with
  | .vInt n => .ok n
  | .vBool b => .ok (if b then 1 else 0)
  | _ => .error (.typeError "unsupported operand type")

/-- Python str() of a value, used only inside error messages. -/
def pyStr (v : Value) : String :=
  match v with
  | .vStr s => s
  | .vInt n => toString n
  | .vBool true => "True"
  | .vBool false => "False"
  | .vNone => "None"
  | .vDict _ => "dict"

/-- Subscript a value (`v[k]`): KeyError when the key is absent,
TypeError when the value is not a dict. -/
def subscript (v : Value) (k : String) : Except PyExc Value :=
  match v with
  | .vDict d =>
      match dget d k with
      | some x => .ok x
      | none => .error (.keyError k)
  | _ => .error (.typeError "object is not subscriptable")

/-- Subscript a dict (`d[k]`): KeyError when the key is absent. -/
def dsubscript (d : Dict) (k : String) : Except PyExc Value :=
  match dget d k with
  | some x => .ok x
  | none => .error (.keyError k)

/-- Python `==` between runtime values, used for owner-identity
comparison and dict-key equality.  Python bool is an int subtype, so
True == 1 and False == 0 (and they hash alike, so a set collapses
them).  Dicts are unhashable in Python and can never reach the
comparison sites (the `set` construction or key hashing raises
TypeError first), so they compare false. -/
def valueEq (a b : Value) : Bool :=
  match a, b with
  | .vStr x, .vStr y => x = y
  | .vInt x, .vInt y => x = y
  | .vBool x, .vBool y => x = y
  | .vInt x, .vBool y => x = (if y then 1 else 0)
  | .vBool x, .vInt y => (if x then (1 : Int) else 0) = y
  | .vNone, .vNone => true
  | _, _ => false

/-- Python `hash(v)` raises TypeError exactly when v is a dict. -/
def unhashable (v : Value) : Bool :=
  match v with
  | .vDict _ => true
  | _ => false

/-- Lookup in a Value-keyed dict (daily-transfer tracking). -/
def vget {α : Type} (d : List (Value × α)) (k : Value) : Option α :=
  match d with
  | [] => none
  | (k', v) :: rest => if valueEq k' k then some v else vget rest k

/-- Assignment in a Value-keyed dict. -/
def vset {α : Type} (d : List (Value × α)) (k : Value) (v : α) :
    List (Value × α) :=
  match d with
  | [] => [(k, v)]
  | (k', v') :: rest =>
      if valueEq k' k then (k, v) :: rest else (k', v') :: vset rest k v

-- ==========================================================================
-- CONSTANTS AND ENUMS (genusd_engine.py lines 27..59)
-- ==========================================================================

inductive KYCLevel where
  | LEVEL_0
  | LEVEL_1
  | LEVEL_2
  | LEVEL_3
deriving DecidableEq, Repr

/-- KYCLevel(value): parse the enum from its string value. -/
def kycOfString (s : String) : Option KYCLevel :=
  if s = "KYC_LEVEL_0" then some .LEVEL_0
  else if s = "KYC_LEVEL_1" then some .LEVEL_1
  else if s = "KYC_LEVEL_2" then some .LEVEL_2
  else if s = "KYC_LEVEL_3" then some .LEVEL_3
  else none

/-- KYCLevel(v) applied to an arbitrary runtime value: a non-member of the
enum raises ValueError, which every call site catches. -/
def kycOfValue (v : Value) : Option KYCLevel :=
  match v with
  | .vStr s => kycOfString s
  | _ => none

/-- KYC daily transfer limits in cents. -/
def KYC_DAILY_LIMITS (k : KYCLevel) : Int :=
  match k with
  | .LEVEL_0 => 0
  | .LEVEL_1 => 100000
  | .LEVEL_2 => 1000000
  | .LEVEL_3 => 999999999999

def ASSET_CODE : String := "GENUSD"

def MAX_UTXO_AMOUNT : Int := 999999999999999

-- ==========================================================================
-- DATA CLASSES (genusd_engine.py lines 66..124)
-- ==========================================================================

/-- Compliance and policy metadata for a UTXO.  The constructor copies
whatever runtime values the (partially unvalidated) output specification
carried, so the fields are `Value`. -/
structure UTXOMetadata where
  jurisdiction : Value
  blacklist_flag : Value
  freeze_reason : Value
  policy_version : Value
  issuer_attestation : Value
deriving Repr

/-- Unspent Transaction Output. -/
structure UTXO where
  utxo_id : String
  owner_id : Value
  asset_code : Value
  amount : Value
  status : Value
  kyc_tag : Value
  created_at : Value
  metadata : UTXOMetadata
deriving Repr

/-- A parsed transaction, the shape produced by `Transaction(**tx_data)`
with the field types the dataclass declares. -/
structure Transaction where
  type : String
  tx_id : String
  timestamp : Int
  inputs : List String
  outputs : List Dict
  policy_ref : String
  signatures : List (String × String)
  metadata : Dict
deriving Repr

/-- Membership of a string key in the signatures mapping. -/
def hasKey (d : List (String × String)) (k : String) : Bool :=
  (dget d k).isSome

/-- Membership of an arbitrary runtime value in the signatures mapping
(a non-string key is never equal to a string key). -/
def valueHasKey (d : List (String × String)) (v : Value) : Bool :=
  match v with
  | .vStr s => hasKey d s
  | _ => false

-- ==========================================================================
-- POLICY ENGINE (genusd_engine.py lines 131..207)
-- ==========================================================================

/-- One named policy rule record, as loaded by `_load_default_policy`. -/
structure PolicyRecord where
  version : String
  issuer : String
  min_burn_amount : Int
  max_mint_per_tx : Int
  allowed_jurisdictions : List String
  kyc_required : Bool
deriving DecidableEq, Repr

/-- Policy and compliance rule enforcement state. -/
structure PolicyEngine where
  policies : List (String × PolicyRecord)
  blacklist : List String
  allowed_jurisdictions : List String
  kyc_registry : List (String × String)
  daily_transfer_tracking : List (Value × List (String × Int))
deriving Repr

def defaultJurisdictions : List String := ["US", "GB", "SG", "JP", "CH"]

def POLICY_V1 : PolicyRecord :=
  { version := "POLICY_V1.0"
  , issuer := "issuer"
  , min_burn_amount := 100000
  , max_mint_per_tx := 10000000000
  , allowed_jurisdictions := defaultJurisdictions
  , kyc_required := true }

def PolicyEngine.init : PolicyEngine :=
  { policies := [("POLICY_V1.0", POLICY_V1)]
  , blacklist := []
  , allowed_jurisdictions := defaultJurisdictions
  , kyc_registry := []
  , daily_transfer_tracking := [] }

def PolicyEngine.register_kyc (pe : PolicyEngine) (owner_id : String)
    (kyc_level : String) : PolicyEngine :=
  { pe with kyc_registry := dset pe.kyc_registry owner_id kyc_level }

/-- Lookup `kyc_registry.get(owner_id)`; a dict key lookup hashes the key, so an
unhashable (dict) key raises TypeError. -/
def PolicyEngine.get_kyc_level (pe : PolicyEngine) (owner_id : Value) :
    Except PyExc (Option String) :=
  if unhashable owner_id then .error (.typeError "unhashable type")
  else match owner_id with
  | .vStr s => .ok (dget pe.kyc_registry s)
  | _ => .ok none

def PolicyEngine.blacklist_owner (pe : PolicyEngine) (owner_id : String) :
    PolicyEngine :=
  if owner_id ∈ pe.blacklist then pe
  else { pe with blacklist := pe.blacklist ++ [owner_id] }

/-- Membership `owner_id in self.blacklist`: set membership hashes the key. -/
def PolicyEngine.is_blacklisted (pe : PolicyEngine) (owner_id : Value) :
    Except PyExc Bool :=
  if unhashable owner_id then .error (.typeError "unhashable type")
  else match owner_id with
  | .vStr s => .ok (s ∈ pe.blacklist)
  | _ => .ok false

/-- Bucket initialisation `if owner_id not in tracking` — the empty bucket
initialisation `check_daily_limit` performs before deciding. -/
def ensureBucket (tr : List (Value × List (String × Int))) (owner : Value) :
    List (Value × List (String × Int)) :=
  match vget tr owner with
  | some _ => tr
  | none => tr ++ [(owner, [])]

def dailyLimitMsg (daily_limit today_amount : Int) : String :=
  "Daily limit exceeded. Limit: " ++ toString daily_limit ++
  ", Used: " ++ toString today_amount ++
  ", Remaining: " ++ toString (daily_limit - today_amount)

def noKycMsg (owner_id : Value) : String :=
  "Owner " ++ pyStr owner_id ++ " has no KYC registration"

/-- Method `check_daily_limit` (lines 171..195).  Returns the (success, message)
pair together with the policy-engine state it leaves behind: the source
initialises the owner tracking bucket before checking the limit, so the
state can change even on failure.  An unparseable registered KYC level
raises ValueError. -/
def PolicyEngine.check_daily_limit (pe : PolicyEngine) (owner_id : Value)
    (amount : Int) (today : String) :
    Except PyExc ((Bool × String) × PolicyEngine) :=
  match pe.get_kyc_level owner_id with
  | .error ex => .error ex
  | .ok none => .ok ((false, noKycMsg owner_id), pe)
  | .ok (some kyc_level) =>
    if kyc_level = "" then .ok ((false, noKycMsg owner_id), pe)
    else match kycOfString kyc_level with
    | none => .error (.valueError "not a valid KYCLevel")
    | some kyc_enum =>
      let daily_limit := KYC_DAILY_LIMITS kyc_enum
      let tr := ensureBucket pe.daily_transfer_tracking owner_id
      let pe' := { pe with daily_transfer_tracking := tr }
      let bucket := (vget tr owner_id).getD []
      let today_amount := (dget bucket today).getD 0
      if today_amount + amount > daily_limit then
        .ok ((false, dailyLimitMsg daily_limit today_amount), pe')
      else
        .ok ((true, ""), pe')

/-- Method `record_transfer` (lines 197..203). -/
def PolicyEngine.record_transfer (pe : PolicyEngine) (owner_id : Value)
    (amount : Int) (today : String) : PolicyEngine :=
  let tr := ensureBucket pe.daily_transfer_tracking owner_id
  let bucket := (vget tr owner_id).getD []
  let bucket' := dset bucket today ((dget bucket today).getD 0 + amount)
  { pe with daily_transfer_tracking := vset tr owner_id bucket' }

/-- Method `validate_jurisdiction`: set membership, so an unhashable runtime
value raises TypeError. -/
def PolicyEngine.validate_jurisdiction (pe : PolicyEngine) (j : Value) :
    Except PyExc Bool :=
  if unhashable j then .error (.typeError "unhashable type")
  else match j with
  | .vStr s => .ok (s ∈ pe.allowed_jurisdictions)
  | _ => .ok false

-- ==========================================================================
-- UTXO ENGINE STATE (genusd_engine.py lines 214..283)
-- ==========================================================================

/-- Core UTXO transaction processing engine state. -/
structure Engine where
  utxos : List (String × UTXO)
  transactions : List (String × Transaction)
  total_supply : Int
  verified_reserves : Int
  policy_engine : PolicyEngine
deriving Repr

def Engine.init : Engine :=
  { utxos := []
  , transactions := []
  , total_supply := 0
  , verified_reserves := 0
  , policy_engine := PolicyEngine.init }

def Engine.get_utxo (e : Engine) (utxo_id : String) : Option UTXO :=
  dget e.utxos utxo_id

def Engine.get_total_supply (e : Engine) : Int := e.total_supply

def Engine.set_verified_reserves (e : Engine) (amount : Int) : Engine :=
  { e with verified_reserves := amount }

/-- Method `freeze_utxo` (lines 259..270): returns (success, message) and the new
engine state. -/
def Engine.freeze_utxo (e : Engine) (utxo_id : String) (reason : String) :
    (Bool × String) × Engine :=
  match e.get_utxo utxo_id with
  | none => ((false, "UTXO " ++ utxo_id ++ " not found"), e)
  | some utxo =>
    if eqStr utxo.status "spent" then
      ((false, "Cannot freeze spent UTXO " ++ utxo_id), e)
    else
      let utxo' := { utxo with
                     status := .vStr "frozen",
                     metadata := { utxo.metadata with
                                   freeze_reason := .vStr reason } }
      ((true, "UTXO " ++ utxo_id ++ " frozen"),
       { e with utxos := dset e.utxos utxo_id utxo' })

/-- Method `unfreeze_utxo` (lines 272..283). -/
def Engine.unfreeze_utxo (e : Engine) (utxo_id : String) :
    (Bool × String) × Engine :=
  match e.get_utxo utxo_id with
  | none => ((false, "UTXO " ++ utxo_id ++ " not found"), e)
  | some utxo =>
    if !(eqStr utxo.status "frozen") then
      ((false, "UTXO " ++ utxo_id ++ " is not frozen"), e)
    else
      let utxo' := { utxo with
                     status := .vStr "active",
                     metadata := { utxo.metadata with
                                   freeze_reason := .vNone } }
      ((true, "UTXO " ++ utxo_id ++ " unfrozen"),
       { e with utxos := dset e.utxos utxo_id utxo' })

-- ==========================================================================
-- SHARED HELPERS (genusd_engine.py lines 530..581)
-- ==========================================================================

def requiredFields : List String :=
  ["owner_id", "asset_code", "amount", "status", "kyc_tag", "created_at",
   "metadata"]

/-- The first required field missing from an output specification. -/
def firstMissing (output : Dict) : Option String :=
  requiredFields.find? (fun f => (dget output f).isNone)

/-- Helper `_validate_output` (lines 530..567).  The `idx` parameter is unused in
the source body as well; callers prefix the index themselves. -/
def _validate_output (pe : PolicyEngine) (output : Dict) (idx : Nat) :
    Except PyExc (Bool × String) :=
  match firstMissing output with
  | some f => .ok (false, "Missing required field: " ++ f)
  | none =>
    let asset := (dget output "asset_code").getD .vNone
    if !(eqStr asset ASSET_CODE) then
      .ok (false, "Invalid asset_code: " ++ pyStr asset ++ ", expected " ++
                  ASSET_CODE)
    else match asInt ((dget output "amount").getD .vNone) with
    | .error ex => .error ex
    | .ok amount =>
      if amount ≤ 0 then .ok (false, "Amount must be > 0")
      else if amount > MAX_UTXO_AMOUNT then
        .ok (false, "Amount exceeds maximum " ++ toString MAX_UTXO_AMOUNT)
      else
        let status := (dget output "status").getD .vNone
        if !(eqStr status "active") then
          .ok (false, "New UTXOs must have status active, got " ++ pyStr status)
        else
          let kyc := (dget output "kyc_tag").getD .vNone
          match kycOfValue kyc with
          | none => .ok (false, "Invalid kyc_tag: " ++ pyStr kyc)
          | some kyc_level =>
            if kyc_level = KYCLevel.LEVEL_0 then
              .ok (false, "KYC_LEVEL_0 not allowed for GENUSD")
            else
              match subscript ((dget output "metadata").getD .vNone)
                      "jurisdiction" with
              | .error ex => .error ex
              | .ok j =>
                match pe.validate_jurisdiction j with
                | .error ex => .error ex
                | .ok jOk =>
                  if !jOk then
                    .ok (false, "Jurisdiction " ++ pyStr j ++ " not allowed")
                  else .ok (true, "")

def metadataFields : List String :=
  ["jurisdiction", "blacklist_flag", "freeze_reason", "policy_version",
   "issuer_attestation"]

/-- Construction `UTXOMetadata(**output_metadata)`: keyword construction requires the
dict keys to be exactly the five dataclass fields, else TypeError; a
non-dict argument to `**` also raises TypeError. -/
def mkUTXOMetadata (v : Value) : Except PyExc UTXOMetadata :=
  match v with
  | .vDict d =>
    if metadataFields.all (fun f => (dget d f).isSome) &&
       d.all (fun p => p.1 ∈ metadataFields) then
      .ok { jurisdiction := (dget d "jurisdiction").getD .vNone
          , blacklist_flag := (dget d "blacklist_flag").getD .vNone
          , freeze_reason := (dget d "freeze_reason").getD .vNone
          , policy_version := (dget d "policy_version").getD .vNone
          , issuer_attestation := (dget d "issuer_attestation").getD .vNone }
    else .error (.typeError "UTXOMetadata() keyword arguments do not match")
  | _ => .error (.typeError "argument after ** must be a mapping")

/-- Helper `_create_utxo` (lines 569..581): copy the output specification fields
into a UTXO object; the metadata construction can raise. -/
def _create_utxo (utxo_id : String) (output : Dict) (timestamp : Int) :
    Except PyExc UTXO :=
  match dsubscript output "metadata" with
  | .error ex => .error ex
  | .ok mv =>
    match mkUTXOMetadata mv with
    | .error ex => .error ex
    | .ok md =>
      match dsubscript output "owner_id", dsubscript output "asset_code",
            dsubscript output "amount", dsubscript output "status",
            dsubscript output "kyc_tag" with
      | .ok owner, .ok asset, .ok amount, .ok status, .ok kyc =>
        .ok { utxo_id := utxo_id
            , owner_id := owner
            , asset_code := asset
            , amount := amount
            , status := status
            , kyc_tag := kyc
            , created_at := .vInt timestamp
            , metadata := md }
      | .error ex, _, _, _, _ => .error ex
      | _, .error ex, _, _, _ => .error ex
      | _, _, .error ex, _, _ => .error ex
      | _, _, _, .error ex, _ => .error ex
      | _, _, _, _, .error ex => .error ex

/-- The UTXO id assigned to output `idx` of transaction `tx_id`. -/
def mkUtxoId (tx_id : String) (idx : Nat) : String :=
  tx_id ++ ":" ++ toString idx

/-- The sum `sum(out[amount] for out in outputs)`, raising at the first output
whose amount is missing or not a number. -/
def sumOutputAmounts (outs : List Dict) : Except PyExc Int :=
  match outs with
  | [] => .ok 0
  | out :: rest =>
    match dsubscript out "amount" with
    | .error ex => .error ex
    | .ok v =>
      match asInt v with
      | .error ex => .error ex
      | .ok n =>
        match sumOutputAmounts rest with
        | .error ex => .error ex
        | .ok s => .ok (n + s)

/-- The sum `sum(utxo.amount for utxo in input_utxos)`. -/
def sumUTXOAmounts (us : List UTXO) : Except PyExc Int :=
  match us with
  | [] => .ok 0
  | u :: rest =>
    match asInt u.amount with
    | .error ex => .error ex
    | .ok n =>
      match sumUTXOAmounts rest with
      | .error ex => .error ex
      | .ok s => .ok (n + s)

/-- The input-resolution loop shared verbatim by `_process_transfer`
(lines 381..390) and `_process_burn` (lines 478..487): each input id must
resolve to an existing UTXO with active status; the first failure yields
the rejection message. -/
def resolveInputs (e : Engine) (ids : List String) :
    Except String (List UTXO) :=
  match ids with
  | [] => .ok []
  | utxo_id :: rest =>
    match e.get_utxo utxo_id with
    | none => .error ("Input UTXO " ++ utxo_id ++ " not found")
    | some utxo =>
      if !(eqStr utxo.status "active") then
        .error ("Input UTXO " ++ utxo_id ++ " is not active (status: " ++
                pyStr utxo.status ++ ")")
      else
        match resolveInputs e rest with
        | .error msg => .error msg
        | .ok us => .ok (utxo :: us)

/-- Mark the UTXO stored under one id as spent (object mutation through
the reference held in `input_utxos`). -/
def markSpentOne (utxos : List (String × UTXO)) (utxo_id : String) :
    List (String × UTXO) :=
  match dget utxos utxo_id with
  | some u => dset utxos utxo_id { u with status := .vStr "spent" }
  | none => utxos

/-- The loop `for utxo in input_utxos` marking statuses spent. -/
def markSpentAll (utxos : List (String × UTXO)) (ids : List String) :
    List (String × UTXO) :=
  match ids with
  | [] => utxos
  | utxo_id :: rest => markSpentAll (markSpentOne utxos utxo_id) rest

/-- The output-creation loop of `_process_mint` (lines 346..350) and
`_process_transfer` (lines 443..447).  A Python exception raised inside
the loop propagates to the caller; the partially mutated state a raised
exception would leave behind is not observed by any result. -/
def createOutputs (tx_id : String) (outs : List Dict) (timestamp : Int)
    (idx : Nat) (utxos : List (String × UTXO)) :
    Except PyExc (List (String × UTXO)) :=
  match outs with
  | [] => .ok utxos
  | out :: rest =>
    match _create_utxo (mkUtxoId tx_id idx) out timestamp with
    | .error ex => .error ex
    | .ok u =>
      createOutputs tx_id rest timestamp (idx + 1)
        (dset utxos (mkUtxoId tx_id idx) u)

-- ==========================================================================
-- MINT (genusd_engine.py lines 315..366)
-- ==========================================================================

/-- The result of `process_transaction`: (success, message, tx_id) plus
the engine state after the call. -/
abbrev PResult := Bool × String × Option String × Engine

def _validate_mint_schema (tx : Transaction) : Bool × String :=
  if !tx.inputs.isEmpty then
    (false, "MINT transaction must have empty inputs")
  else if tx.outputs.isEmpty then
    (false, "MINT transaction must have at least one output")
  else (true, "")

/-- The output-validation loop of `_process_mint` (lines 341..344):
the first failing output rejects with an index-qualified message. -/
def mintValidateOutputs (pe : PolicyEngine) (outs : List Dict) (idx : Nat) :
    Except PyExc (Option String) :=
  match outs with
  | [] => .ok none
  | out :: rest =>
    match _validate_output pe out idx with
    | .error ex => .error ex
    | .ok (false, msg) => .ok (some ("Output " ++ toString idx ++ ": " ++ msg))
    | .ok (true, _) => mintValidateOutputs pe rest (idx + 1)

def insufficientReservesMsg (e : Engine) (total_mint_amount : Int) : String :=
  "Insufficient reserves. Supply would be " ++
  toString (e.total_supply + total_mint_amount) ++
  ", reserves are " ++ toString e.verified_reserves

/-- Pipeline `_process_mint` (lines 315..356). -/
def _process_mint (e : Engine) (tx : Transaction) : Except PyExc PResult :=
  match _validate_mint_schema tx with
  | (false, msg) => .ok (false, msg, none, e)
  | (true, _) =>
  if !(hasKey tx.signatures "issuer") then
    .ok (false, "MINT requires issuer signature", none, e)
  else match sumOutputAmounts tx.outputs with
  | .error ex => .error ex
  | .ok total_mint_amount =>
  if e.total_supply + total_mint_amount > e.verified_reserves then
    .ok (false, insufficientReservesMsg e total_mint_amount, none, e)
  else match dget e.policy_engine.policies tx.policy_ref with
  | none => .ok (false, "Unknown policy: " ++ tx.policy_ref, none, e)
  | some policy =>
  if total_mint_amount > policy.max_mint_per_tx then
    .ok (false, "Mint amount " ++ toString total_mint_amount ++
                " exceeds max " ++ toString policy.max_mint_per_tx, none, e)
  else match mintValidateOutputs e.policy_engine tx.outputs 0 with
  | .error ex => .error ex
  | .ok (some msg) => .ok (false, msg, none, e)
  | .ok none =>
  match createOutputs tx.tx_id tx.outputs tx.timestamp 0 e.utxos with
  | .error ex => .error ex
  | .ok utxos' =>
  .ok (true,
       "MINT successful: " ++ toString tx.outputs.length ++
       " UTXOs created, " ++ toString total_mint_amount ++ " minted",
       some tx.tx_id,
       { e with
         utxos := utxos',
         total_supply := e.total_supply + total_mint_amount,
         transactions := dset e.transactions tx.tx_id tx })

-- ==========================================================================
-- TRANSFER (genusd_engine.py lines 372..463)
-- ==========================================================================

def _validate_transfer_schema (tx : Transaction) : Bool × String :=
  if tx.inputs.isEmpty then
    (false, "TRANSFER transaction must have at least one input")
  else if tx.outputs.isEmpty then
    (false, "TRANSFER transaction must have at least one output")
  else (true, "")

/-- The owner set `set(utxo.owner_id for utxo in input_utxos)` and size check
(lines 393..395): building the set hashes every owner, raising TypeError
on an unhashable owner; the transfer is rejected when the set has more
than one element, i.e. when some owner differs from the first. -/
def ownersDistinct (us : List UTXO) : Except PyExc Bool :=
  if us.any (fun u => unhashable u.owner_id) then
    .error (.typeError "unhashable type")
  else match us with
  | [] => .ok false
  | u0 :: rest => .ok (rest.any (fun u => !valueEq u.owner_id u0.owner_id))

/-- The blacklist loop of `_process_transfer` (lines 404..409). -/
def checkInputBlacklist (pe : PolicyEngine) (us : List UTXO) :
    Except PyExc (Option String) :=
  match us with
  | [] => .ok none
  | u :: rest =>
    if truthy u.metadata.blacklist_flag then
      .ok (some ("Input UTXO " ++ u.utxo_id ++ " belongs to blacklisted owner"))
    else match pe.is_blacklisted u.owner_id with
    | .error ex => .error ex
    | .ok true => .ok (some ("Owner " ++ pyStr u.owner_id ++ " is blacklisted"))
    | .ok false => checkInputBlacklist pe rest

/-- The output loop of `_process_transfer` (lines 419..432): shared output
validation with an index-qualified reason, then recipient KYC
registration and recipient blacklist. -/
def transferValidateOutputs (pe : PolicyEngine) (outs : List Dict)
    (idx : Nat) : Except PyExc (Option String) :=
  match outs with
  | [] => .ok none
  | out :: rest =>
    match _validate_output pe out idx with
    | .error ex => .error ex
    | .ok (false, msg) =>
      .ok (some ("Output " ++ toString idx ++ ": " ++ msg))
    | .ok (true, _) =>
      match dsubscript out "owner_id" with
      | .error ex => .error ex
      | .ok recipient_id =>
        match pe.get_kyc_level recipient_id with
        | .error ex => .error ex
        | .ok recipient_kyc =>
          if recipient_kyc.getD "" = "" then
            .ok (some ("Recipient " ++ pyStr recipient_id ++
                       " has no KYC registration"))
          else match pe.is_blacklisted recipient_id with
          | .error ex => .error ex
          | .ok true =>
            .ok (some ("Recipient " ++ pyStr recipient_id ++ " is blacklisted"))
          | .ok false => transferValidateOutputs pe rest (idx + 1)

def conservationMsg (input_sum output_sum : Int) : String :=
  "Input sum (" ++ toString input_sum ++ ") != Output sum (" ++
  toString output_sum ++ ")"

/-- Expression `input_utxos[0].owner_id` (line 397): the sender identity. -/
def firstOwner (us : List UTXO) : Value :=
  (us.head?.map (fun u => u.owner_id)).getD .vNone

/-- Pipeline `_process_transfer` (lines 372..453). -/
def _process_transfer (e : Engine) (tx : Transaction) (today : String) :
    Except PyExc PResult :=
  match _validate_transfer_schema tx with
  | (false, msg) => .ok (false, msg, none, e)
  | (true, _) =>
  match resolveInputs e tx.inputs with
  | .error msg => .ok (false, msg, none, e)
  | .ok input_utxos =>
  match ownersDistinct input_utxos with
  | .error ex => .error ex
  | .ok true =>
    .ok (false, "All input UTXOs must belong to the same owner", none, e)
  | .ok false =>
  let owner_id := firstOwner input_utxos
  if !(valueHasKey tx.signatures owner_id) then
    .ok (false, "Missing signature from owner " ++ pyStr owner_id, none, e)
  else match checkInputBlacklist e.policy_engine input_utxos with
  | .error ex => .error ex
  | .ok (some msg) => .ok (false, msg, none, e)
  | .ok none =>
  match sumUTXOAmounts input_utxos with
  | .error ex => .error ex
  | .ok input_sum =>
  match sumOutputAmounts tx.outputs with
  | .error ex => .error ex
  | .ok output_sum =>
  if input_sum != output_sum then
    .ok (false, conservationMsg input_sum output_sum, none, e)
  else match transferValidateOutputs e.policy_engine tx.outputs 0 with
  | .error ex => .error ex
  | .ok (some msg) => .ok (false, msg, none, e)
  | .ok none =>
  match e.policy_engine.check_daily_limit owner_id output_sum today with
  | .error ex => .error ex
  | .ok ((false, msg), pe') =>
    .ok (false, msg, none, { e with policy_engine := pe' })
  | .ok ((true, _), pe') =>
  match createOutputs tx.tx_id tx.outputs tx.timestamp 0
          (markSpentAll e.utxos tx.inputs) with
  | .error ex => .error ex
  | .ok utxos' =>
  .ok (true,
       "TRANSFER successful: " ++ toString tx.inputs.length ++
       " inputs spent, " ++ toString tx.outputs.length ++
       " outputs created",
       some tx.tx_id,
       { e with
         utxos := utxos',
         transactions := dset e.transactions tx.tx_id tx,
         policy_engine := pe'.record_transfer owner_id output_sum today })

-- ==========================================================================
-- BURN (genusd_engine.py lines 469..524)
-- ==========================================================================

def _validate_burn_schema (tx : Transaction) : Bool × String :=
  if tx.inputs.isEmpty then
    (false, "BURN transaction must have at least one input")
  else if !tx.outputs.isEmpty then
    (false, "BURN transaction must have empty outputs")
  else (true, "")

/-- The BURN authorization condition (lines 490..492): the reserved
issuer key, or the identity of any input owner, present among the
signatures.  Building the owner set hashes every owner. -/
def burnAuth (sigs : List (String × String)) (us : List UTXO) :
    Except PyExc Bool :=
  if us.any (fun u => unhashable u.owner_id) then
    .error (.typeError "unhashable type")
  else
    .ok (hasKey sigs "issuer" || us.any (fun u => valueHasKey sigs u.owner_id))

/-- Pipeline `_process_burn` (lines 469..514). -/
def _process_burn (e : Engine) (tx : Transaction) : Except PyExc PResult :=
  match _validate_burn_schema tx with
  | (false, msg) => .ok (false, msg, none, e)
  | (true, _) =>
  match resolveInputs e tx.inputs with
  | .error msg => .ok (false, msg, none, e)
  | .ok input_utxos =>
  match burnAuth tx.signatures input_utxos with
  | .error ex => .error ex
  | .ok false =>
    .ok (false, "BURN requires issuer or owner signature", none, e)
  | .ok true =>
  match dget e.policy_engine.policies tx.policy_ref with
  | none => .ok (false, "Unknown policy: " ++ tx.policy_ref, none, e)
  | some policy =>
  match sumUTXOAmounts input_utxos with
  | .error ex => .error ex
  | .ok burn_amount =>
  if burn_amount < policy.min_burn_amount then
    .ok (false, "Burn amount " ++ toString burn_amount ++
                " below minimum " ++ toString policy.min_burn_amount,
         none, e)
  else
    .ok (true,
         "BURN successful: " ++ toString tx.inputs.length ++
         " UTXOs burned, " ++ toString burn_amount ++ " destroyed",
         some tx.tx_id,
         { e with
           utxos := markSpentAll e.utxos tx.inputs,
           total_supply := e.total_supply - burn_amount,
           transactions := dset e.transactions tx.tx_id tx })

-- ==========================================================================
-- DISPATCH (genusd_engine.py lines 289..309)
-- ==========================================================================

/-- Entry point `process_transaction`, applied to an input record that already parsed
into the Transaction shape (the surrounding try/except only guards the
`Transaction(**tx_data)` construction itself). -/
def process_transaction (e : Engine) (today : String) (tx : Transaction) :
    Except PyExc PResult :=
  if tx.type = "MINT" then _process_mint e tx
  else if tx.type = "TRANSFER" then _process_transfer e tx today
  else if tx.type = "BURN" then _process_burn e tx
  else .ok (false, "Unknown transaction type: " ++ tx.type, none, e)

-- ==========================================================================
-- EXPORT / IMPORT (genusd_engine.py lines 587..607)
-- ==========================================================================

/-- Image `asdict(utxo)`: the serialized field-by-field image of a UTXO
produced by `UTXO.to_dict`. -/
structure UTXODict where
  utxo_id : String
  owner_id : Value
  asset_code : Value
  amount : Value
  status : Value
  kyc_tag : Value
  created_at : Value
  metadata : UTXOMetadata
deriving Repr

def UTXO.to_dict (u : UTXO) : UTXODict :=
  { utxo_id := u.utxo_id
  , owner_id := u.owner_id
  , asset_code := u.asset_code
  , amount := u.amount
  , status := u.status
  , kyc_tag := u.kyc_tag
  , created_at := u.created_at
  , metadata := u.metadata }

def UTXO.from_dict (d : UTXODict) : UTXO :=
  { utxo_id := d.utxo_id
  , owner_id := d.owner_id
  , asset_code := d.asset_code
  , amount := d.amount
  , status := d.status
  , kyc_tag := d.kyc_tag
  , created_at := d.created_at
  , metadata := d.metadata }

/-- Image `asdict(tx)`: the serialized form of a Transaction. -/
structure TransactionDict where
  type : String
  tx_id : String
  timestamp : Int
  inputs : List String
  outputs : List Dict
  policy_ref : String
  signatures : List (String × String)
  metadata : Dict
deriving Repr

def Transaction.to_dict (t : Transaction) : TransactionDict :=
  { type := t.type
  , tx_id := t.tx_id
  , timestamp := t.timestamp
  , inputs := t.inputs
  , outputs := t.outputs
  , policy_ref := t.policy_ref
  , signatures := t.signatures
  , metadata := t.metadata }

/-- Parsing `Transaction(**tx_data)` applied to a serialized transaction. -/
def Transaction.from_dict (d : TransactionDict) : Transaction :=
  { type := d.type
  , tx_id := d.tx_id
  , timestamp := d.timestamp
  , inputs := d.inputs
  , outputs := d.outputs
  , policy_ref := d.policy_ref
  , signatures := d.signatures
  , metadata := d.metadata }

/-- The value returned by `export_state` (lines 587..594). -/
structure ExportedState where
  utxos : List (String × UTXODict)
  transactions : List (String × TransactionDict)
  total_supply : Int
  verified_reserves : Int
deriving Repr

def Engine.export_state (e : Engine) : ExportedState :=
  { utxos := e.utxos.map (fun p => (p.1, p.2.to_dict))
  , transactions := e.transactions.map (fun p => (p.1, p.2.to_dict))
  , total_supply := e.total_supply
  , verified_reserves := e.verified_reserves }

/-- Method `import_state` (lines 596..607): replaces the ledger fields, leaving
`policy_engine` untouched. -/
def Engine.import_state (e : Engine) (state : ExportedState) : Engine :=
  { e with
    utxos := state.utxos.map (fun p => (p.1, UTXO.from_dict p.2)),
    transactions :=
      state.transactions.map (fun p => (p.1, Transaction.from_dict p.2)),
    total_supply := state.total_supply,
    verified_reserves := state.verified_reserves }

-- ==========================================================================
-- SPEC-SIDE MEASURES
-- ==========================================================================

/-- The integer an amount value denotes (validated amounts are ints). -/
def amountInt (v : Value) : Int :=
  match v with
  | .vInt n => n
  | .vBool b => if b then 1 else 0
  | _ => 0

/-- The sum of the amounts of all UTXOs whose status is Active, the
right-hand side of engine invariant 1. -/
def activeSupply (e : Engine) : Int :=
  (e.utxos.map (fun p => if eqStr p.2.status "active" then amountInt p.2.amount
                         else 0)).sum

-- ==========================================================================
-- RESULT EXTRACTORS AND CONCRETE SCENARIOS
-- ==========================================================================

/-- The success flag of a call result (`none` when an exception escaped). -/
def resSuccess (r : Except PyExc PResult) : Option Bool :=
  match r with
  | .ok (b, _, _, _) => some b
  | .error _ => none

/-- The message of a call result. -/
def resMsg (r : Except PyExc PResult) : Option String :=
  match r with
  | .ok (_, m, _, _) => some m
  | .error _ => none

/-- The transaction id of a call result. -/
def resTxId (r : Except PyExc PResult) : Option (Option String) :=
  match r with
  | .ok (_, _, t, _) => some t
  | .error _ => none

/-- The exception of a call result, when one escaped. -/
def resExc (r : Except PyExc PResult) : Option PyExc :=
  match r with
  | .ok _ => none
  | .error ex => some ex

/-- The engine state after one `process_transaction` call (a raised
exception leaves the caller with the engine object it had). -/
def stepEngine (e : Engine) (today : String) (tx : Transaction) : Engine :=
  match process_transaction e today tx with
  | .ok (_, _, _, e') => e'
  | .error _ => e

/-- Whether one `process_transaction` call commits successfully. -/
def stepOk (e : Engine) (today : String) (tx : Transaction) : Bool :=
  match process_transaction e today tx with
  | .ok (true, _, _, _) => true
  | _ => false

def sampleDate : String := "2025-11-28"

/-- A fully valid metadata dict for output specifications. -/
def mdUS : Dict :=
  [("jurisdiction", .vStr "US"), ("blacklist_flag", .vBool false),
   ("freeze_reason", .vNone), ("policy_version", .vStr "POLICY_V1.0"),
   ("issuer_attestation", .vStr "SHA256:att")]

/-- A fully valid output specification. -/
def mkOutput (owner : String) (amount : Int) (tag : String) : Dict :=
  [("owner_id", .vStr owner), ("asset_code", .vStr "GENUSD"),
   ("amount", .vInt amount), ("status", .vStr "active"),
   ("kyc_tag", .vStr tag), ("created_at", .vInt 0),
   ("metadata", .vDict mdUS)]

def sigOf (signer : String) : List (String × String) := [(signer, "SIG")]

def mkMint (tx_id owner : String) (amount : Int) (tag : String)
    (sigs : List (String × String)) : Transaction :=
  { type := "MINT", tx_id := tx_id, timestamp := 0, inputs := []
  , outputs := [mkOutput owner amount tag], policy_ref := "POLICY_V1.0"
  , signatures := sigs, metadata := [] }

def mkTransfer (tx_id : String) (inputs : List String) (outs : List Dict)
    (sigs : List (String × String)) : Transaction :=
  { type := "TRANSFER", tx_id := tx_id, timestamp := 0, inputs := inputs
  , outputs := outs, policy_ref := "POLICY_V1.0", signatures := sigs
  , metadata := [] }

def mkBurn (tx_id : String) (inputs : List String)
    (sigs : List (String × String)) : Transaction :=
  { type := "BURN", tx_id := tx_id, timestamp := 0, inputs := inputs
  , outputs := [], policy_ref := "POLICY_V1.0", signatures := sigs
  , metadata := [] }

-- C1 scenario: one mint, then a burn listing the same input twice.
def c1Engine0 : Engine := Engine.init.set_verified_reserves 200000
def c1Mint : Transaction := mkMint "T1" "alice" 100000 "KYC_LEVEL_3" (sigOf "issuer")
def c1Burn : Transaction := mkBurn "B1" ["T1:0", "T1:0"] (sigOf "issuer")
def c1Engine1 : Engine := stepEngine c1Engine0 sampleDate c1Mint
def c1Engine2 : Engine := stepEngine c1Engine1 sampleDate c1Burn

-- C2 scenario: a transfer rejected by the daily limit.
def c2Engine0 : Engine :=
  { Engine.init.set_verified_reserves 200000 with
    policy_engine :=
      (PolicyEngine.init.register_kyc "alice" "KYC_LEVEL_1").register_kyc
        "bob" "KYC_LEVEL_2" }
def c2Mint : Transaction := mkMint "T1" "alice" 200000 "KYC_LEVEL_1" (sigOf "issuer")
def c2Transfer : Transaction :=
  mkTransfer "T2" ["T1:0"] [mkOutput "bob" 200000 "KYC_LEVEL_2"] (sigOf "alice")
def c2Engine1 : Engine := stepEngine c2Engine0 sampleDate c2Mint
def c2Engine2 : Engine := stepEngine c2Engine1 sampleDate c2Transfer

-- C3 scenario: mint, burn the UTXO, replay the mint with the same tx_id,
-- then spend the resurrected UTXO again.
def c3Engine0 : Engine := Engine.init.set_verified_reserves 300000
def c3Mint : Transaction := mkMint "T1" "alice" 100000 "KYC_LEVEL_3" (sigOf "issuer")
def c3Burn1 : Transaction := mkBurn "B1" ["T1:0"] (sigOf "issuer")
def c3Burn2 : Transaction := mkBurn "B2" ["T1:0"] (sigOf "issuer")
def c3Engine1 : Engine := stepEngine c3Engine0 sampleDate c3Mint
def c3Engine2 : Engine := stepEngine c3Engine1 sampleDate c3Burn1
def c3Engine3 : Engine := stepEngine c3Engine2 sampleDate c3Mint
def c3Engine4 : Engine := stepEngine c3Engine3 sampleDate c3Burn2

-- C4 scenario: a parsed MINT whose single output is an empty dict.
def c4Tx : Transaction :=
  { type := "MINT", tx_id := "T1", timestamp := 0, inputs := []
  , outputs := [[]], policy_ref := "POLICY_V1.0"
  , signatures := sigOf "issuer", metadata := [] }

-- C5 scenario: two successful mints reusing the same tx_id with
-- different outputs.
def c5Engine0 : Engine := Engine.init.set_verified_reserves 200000
def c5MintA : Transaction := mkMint "T1" "alice" 100000 "KYC_LEVEL_3" (sigOf "issuer")
def c5MintB : Transaction := mkMint "T1" "bob" 50000 "KYC_LEVEL_3" (sigOf "issuer")
def c5Engine1 : Engine := stepEngine c5Engine0 sampleDate c5MintA
def c5Engine2 : Engine := stepEngine c5Engine1 sampleDate c5MintB

-- C6 counterexample: a reserve-exceeding MINT without the issuer key.
def c6Engine : Engine := Engine.init
def c6Tx : Transaction := mkMint "T1" "alice" 100 "KYC_LEVEL_3" []

-- C7 counterexample: a sum-mismatched transfer rejected for a missing
-- signature instead of the conservation error.
def c7Engine0 : Engine := Engine.init.set_verified_reserves 200000
def c7Mint : Transaction := mkMint "T1" "alice" 100000 "KYC_LEVEL_3" (sigOf "issuer")
def c7Engine1 : Engine := stepEngine c7Engine0 sampleDate c7Mint
def c7Transfer : Transaction :=
  mkTransfer "T2" ["T1:0"] [mkOutput "bob" 40000 "KYC_LEVEL_2"] []

-- C7 witness input: the same mismatched transfer, now properly signed,
-- so that the conservation check itself is the rejecting step.
def c7TransferSigned : Transaction :=
  mkTransfer "T2" ["T1:0"] [mkOutput "bob" 40000 "KYC_LEVEL_2"] (sigOf "alice")

/-- The sum of the amounts of the UTXOs a list of input ids resolves to,
when they all resolve. -/
def resolvedInputSum (e : Engine) (ids : List String) : Option Int :=
  match resolveInputs e ids with
  | .error _ => none
  | .ok us =>
    match sumUTXOAmounts us with
    | .error _ => none
    | .ok n => some n

/-- The state relation a failed `process_transaction` call actually
guarantees: ledger map, transaction log, supply, reserves and every
Policy Registry component unchanged, except that the daily-transfer
tracking may have gained one empty bucket for an owner that had none
(the initialisation `check_daily_limit` performs before rejecting). -/
def UnchangedModuloBucket (e e' : Engine) : Prop :=
  e'.utxos = e.utxos ∧
  e'.transactions = e.transactions ∧
  e'.total_supply = e.total_supply ∧
  e'.verified_reserves = e.verified_reserves ∧
  e'.policy_engine.policies = e.policy_engine.policies ∧
  e'.policy_engine.blacklist = e.policy_engine.blacklist ∧
  e'.policy_engine.allowed_jurisdictions =
    e.policy_engine.allowed_jurisdictions ∧
  e'.policy_engine.kyc_registry = e.policy_engine.kyc_registry ∧
  (e'.policy_engine.daily_transfer_tracking =
     e.policy_engine.daily_transfer_tracking ∨
   ∃ owner, vget e.policy_engine.daily_transfer_tracking owner = none ∧
     e'.policy_engine.daily_transfer_tracking =
       e.policy_engine.daily_transfer_tracking ++ [(owner, [])])

/-- The conditions C8 lists for an output specification to be accepted
by the shared output validation, stated over the raw runtime values. -/
def outputConditions (pe : PolicyEngine) (output : Dict) : Prop :=
  (∀ f ∈ requiredFields, (dget output f).isSome = true) ∧
  eqStr ((dget output "asset_code").getD .vNone) ASSET_CODE = true ∧
  (∃ n : Int, asInt ((dget output "amount").getD .vNone) = .ok n ∧
    0 < n ∧ n ≤ MAX_UTXO_AMOUNT) ∧
  eqStr ((dget output "status").getD .vNone) "active" = true ∧
  (∃ k, kycOfValue ((dget output "kyc_tag").getD .vNone) = some k ∧
    k ≠ KYCLevel.LEVEL_0) ∧
  (∃ j, subscript ((dget output "metadata").getD .vNone) "jurisdiction" =
      .ok (.vStr j) ∧ j ∈ pe.allowed_jurisdictions)

-- ==========================================================================
-- THEOREMS
-- ==========================================================================

theorem ensureBucket_spec (tr : List (Value × List (String × Int)))
    (o : Value) :
    ensureBucket tr o = tr ∨
    (vget tr o = none ∧ ensureBucket tr o = tr ++ [(o, [])]) := by
  cases hv : vget tr o <;> simp [ensureBucket, hv]

theorem unchangedModuloBucket_refl (e : Engine) : UnchangedModuloBucket e e :=
  ⟨rfl, rfl, rfl, rfl, rfl, rfl, rfl, rfl, Or.inl rfl⟩

theorem check_daily_limit_pe (pe : PolicyEngine) (owner : Value)
    (amount : Int) (today : String) (r : Bool × String) (pe' : PolicyEngine)
    (h : pe.check_daily_limit owner amount today = .ok (r, pe')) :
    pe'.policies = pe.policies ∧ pe'.blacklist = pe.blacklist ∧
    pe'.allowed_jurisdictions = pe.allowed_jurisdictions ∧
    pe'.kyc_registry = pe.kyc_registry ∧
    (pe'.daily_transfer_tracking = pe.daily_transfer_tracking ∨
     ∃ o, vget pe.daily_transfer_tracking o = none ∧
       pe'.daily_transfer_tracking =
         pe.daily_transfer_tracking ++ [(o, [])]) := by
  unfold PolicyEngine.check_daily_limit at h
  split at h
  · exact Except.noConfusion h
  · simp only [Except.ok.injEq, Prod.mk.injEq] at h
    obtain ⟨-, hpe⟩ := h
    subst hpe
    exact ⟨rfl, rfl, rfl, rfl, Or.inl rfl⟩
  · split at h
    · simp only [Except.ok.injEq, Prod.mk.injEq] at h
      obtain ⟨-, hpe⟩ := h
      subst hpe
      exact ⟨rfl, rfl, rfl, rfl, Or.inl rfl⟩
    · split at h
      · exact Except.noConfusion h
      · dsimp only at h
        rw [ite_eq_iff] at h
        rcases h with ⟨-, h⟩ | ⟨-, h⟩ <;>
          (simp only [Except.ok.injEq, Prod.mk.injEq] at h
           obtain ⟨-, hpe⟩ := h
           subst hpe
           refine ⟨rfl, rfl, rfl, rfl, ?_⟩
           rcases ensureBucket_spec pe.daily_transfer_tracking owner with
             he | ⟨hv, he⟩
           · exact Or.inl he
           · exact Or.inr ⟨owner, hv, he⟩)


theorem mint_fail_eq (e : Engine) (tx : Transaction) (msg : String)
    (tid : Option String) (e' : Engine)
    (h : _process_mint e tx = .ok (false, msg, tid, e')) : e' = e := by
  unfold _process_mint at h
  repeat' split at h
  all_goals
    first
    | exact Except.noConfusion h
    | (simp only [Except.ok.injEq, Prod.mk.injEq] at h
       first
       | exact Bool.noConfusion h.1
       | exact h.2.2.2.symm)

theorem burn_fail_eq (e : Engine) (tx : Transaction) (msg : String)
    (tid : Option String) (e' : Engine)
    (h : _process_burn e tx = .ok (false, msg, tid, e')) : e' = e := by
  unfold _process_burn at h
  repeat' split at h
  all_goals
    first
    | exact Except.noConfusion h
    | (simp only [Except.ok.injEq, Prod.mk.injEq] at h
       first
       | exact Bool.noConfusion h.1
       | exact h.2.2.2.symm)

theorem transfer_fail_unchanged (e : Engine) (tx : Transaction)
    (today : String) (msg : String) (tid : Option String) (e' : Engine)
    (h : _process_transfer e tx today = .ok (false, msg, tid, e')) :
    UnchangedModuloBucket e e' := by
  unfold _process_transfer at h
  repeat'
    first
    | split at h
    | (rw [ite_eq_iff] at h
       rcases h with ⟨-, h⟩ | ⟨-, h⟩)
  all_goals
    first
    | exact Except.noConfusion h
    | (simp only [Except.ok.injEq, Prod.mk.injEq] at h
       first
       | exact Bool.noConfusion h.1
       | (have he := h.2.2.2
          subst he
          first
          | exact unchangedModuloBucket_refl _
          | (obtain ⟨h1, h2, h3, h4, h5⟩ :=
               check_daily_limit_pe _ _ _ _ _ _ (by assumption)
             exact ⟨rfl, rfl, rfl, rfl, h1, h2, h3, h4, h5⟩)))

/-- C2 (amended): whenever `process_transaction` returns a failure, the
UTXO map, transaction log, total_supply, verified_reserves and Policy
Registry are unchanged, except that the daily-transfer tracking may have
gained one empty bucket for an owner that had none. -/
theorem c2_failure_leaves_state (e : Engine) (today : String)
    (tx : Transaction) (msg : String) (tid : Option String) (e' : Engine)
    (h : process_transaction e today tx = .ok (false, msg, tid, e')) :
    UnchangedModuloBucket e e' := by
  unfold process_transaction at h
  repeat' split at h
  · have he := mint_fail_eq _ _ _ _ _ h
    subst he
    exact unchangedModuloBucket_refl _
  · exact transfer_fail_unchanged _ _ _ _ _ _ h
  · have he := burn_fail_eq _ _ _ _ _ h
    subst he
    exact unchangedModuloBucket_refl _
  · simp only [Except.ok.injEq, Prod.mk.injEq] at h
    have he := h.2.2.2
    subst he
    exact unchangedModuloBucket_refl _

/-- C2 witness: the amended statement applied to the concrete
daily-limit rejection of the counterexample scenario. -/
theorem c2_witness : UnchangedModuloBucket c2Engine1 c2Engine2 :=
  c2_failure_leaves_state c2Engine1 sampleDate c2Transfer
    (dailyLimitMsg 100000 0) none c2Engine2 rfl

/-- C1: the spec claims `total_supply == Σ amount of Active UTXOs` after
every committed MINT/TRANSFER/BURN.  A BURN listing the same input UTXO
twice commits successfully (each occurrence passes the activeness check
against the unmutated state), subtracts the amount twice from
`total_supply`, but removes it from the active set only once: after the
two commits below the supply is -100000 while the active sum is 0. -/
theorem c1_supply_invariant_violated :
    stepOk c1Engine0 sampleDate c1Mint = true ∧
    stepOk c1Engine1 sampleDate c1Burn = true ∧
    c1Engine2.total_supply = -100000 ∧
    activeSupply c1Engine2 = 0 ∧
    c1Engine2.total_supply ≠ activeSupply c1Engine2 := by
  refine ⟨rfl, rfl, rfl, rfl, ?_⟩
  decide

/-- C3: the spec claims a Spent UTXO never returns to Active and every
later transaction referencing it as an input is rejected.  Because
`process_transaction` never checks tx_id freshness, replaying the MINT
with the same tx_id overwrites the spent UTXO "T1:0" with a fresh Active
one, and a second BURN consuming "T1:0" then commits successfully. -/
theorem c3_spent_utxo_resurrected :
    stepOk c3Engine0 sampleDate c3Mint = true ∧
    stepOk c3Engine1 sampleDate c3Burn1 = true ∧
    (dget c3Engine2.utxos "T1:0").map (fun u => eqStr u.status "spent") =
      some true ∧
    stepOk c3Engine2 sampleDate c3Mint = true ∧
    (dget c3Engine3.utxos "T1:0").map (fun u => eqStr u.status "active") =
      some true ∧
    stepOk c3Engine3 sampleDate c3Burn2 = true := by
  exact ⟨rfl, rfl, rfl, rfl, rfl, rfl⟩

/-- C4: the spec claims `process_transaction` never raises on a record
that parses into the Transaction shape.  A parsed MINT whose single
output is the empty dict reaches `sum(out[amount] for out in outputs)`
before any output validation, and the subscript raises KeyError. -/
theorem c4_process_transaction_raises :
    resExc (process_transaction Engine.init sampleDate c4Tx) =
      some (.keyError "amount") := by
  exact rfl

/-- C5: the spec claims no UTXO id is ever reused for a different UTXO.
Two successful MINTs sharing a tx_id both store their output under
"T1:0": the second (amount 50000, owner bob) silently replaces the first
(amount 100000, owner alice). -/
theorem c5_utxo_id_reused :
    stepOk c5Engine0 sampleDate c5MintA = true ∧
    stepOk c5Engine1 sampleDate c5MintB = true ∧
    (dget c5Engine1.utxos "T1:0").map (fun u => amountInt u.amount) =
      some 100000 ∧
    (dget c5Engine2.utxos "T1:0").map (fun u => amountInt u.amount) =
      some 50000 ∧
    (dget c5Engine1.utxos "T1:0").map (fun u => pyStr u.owner_id) =
      some "alice" ∧
    (dget c5Engine2.utxos "T1:0").map (fun u => pyStr u.owner_id) =
      some "bob" := by
  exact ⟨rfl, rfl, rfl, rfl, rfl, rfl⟩

/-- C2 counterexample: the claim says a failed `process_transaction` call
leaves every part of the state, including the per-owner daily-transfer
tracking, exactly as it was.  A transfer rejected by the daily limit
(alice is KYC level 1, moving 200000 > 100000) leaves behind the empty
tracking bucket `check_daily_limit` created for the sender before
failing: the tracking map changes from [] to [(alice, [])]. -/
theorem c2_counterexample_daily_limit_mutation :
    resSuccess (process_transaction c2Engine1 sampleDate c2Transfer) =
      some false ∧
    c2Engine1.policy_engine.daily_transfer_tracking = [] ∧
    c2Engine2.policy_engine.daily_transfer_tracking =
      [(Value.vStr "alice", [])] ∧
    c2Engine2.policy_engine.daily_transfer_tracking ≠
      c2Engine1.policy_engine.daily_transfer_tracking := by
  refine ⟨rfl, rfl, rfl, ?_⟩
  intro h
  rw [show c2Engine2.policy_engine.daily_transfer_tracking =
        [(Value.vStr "alice", [])] from rfl,
      show c2Engine1.policy_engine.daily_transfer_tracking = [] from rfl] at h
  exact List.cons_ne_nil _ _ h

/-- C6 counterexample: a MINT that would push supply above reserves but
carries no issuer signature is rejected with the authorization message,
which is not the reserves-naming message the claim promises for every
reserve-exceeding MINT. -/
theorem c6_counterexample_signature_message :
    resSuccess (process_transaction c6Engine sampleDate c6Tx) = some false ∧
    sumOutputAmounts c6Tx.outputs = .ok 100 ∧
    c6Engine.total_supply + 100 > c6Engine.verified_reserves ∧
    resMsg (process_transaction c6Engine sampleDate c6Tx) =
      some "MINT requires issuer signature" ∧
    "MINT requires issuer signature" ≠ insufficientReservesMsg c6Engine 100 := by
  exact ⟨rfl, rfl, by decide, rfl, by decide⟩

/-- C6 (amended): every MINT whose outputs sum to an amount that would
push total_supply above verified_reserves is rejected with no state
change, however small the excess; when the MINT moreover has a valid
schema and the issuer signature, the rejection message is the one naming
the reserves. -/
theorem c6_reserve_exceeding_mint_rejected (e : Engine) (today : String)
    (tx : Transaction) (total : Int)
    (htype : tx.type = "MINT")
    (hsum : sumOutputAmounts tx.outputs = .ok total)
    (hres : e.total_supply + total > e.verified_reserves) :
    ∃ msg, process_transaction e today tx = .ok (false, msg, none, e) ∧
      (_validate_mint_schema tx = (true, "") →
       hasKey tx.signatures "issuer" = true →
       msg = insufficientReservesMsg e total) := by
  have hd : process_transaction e today tx = _process_mint e tx := by
    unfold process_transaction
    rw [htype]
    simp
  rw [hd]
  unfold _process_mint
  rcases hsch : _validate_mint_schema tx with ⟨b, m⟩
  cases b
  · refine ⟨m, rfl, ?_⟩
    intro hcontra
    simp at hcontra
  · cases hsig : hasKey tx.signatures "issuer"
    · simp only [hsig, Bool.not_false, if_pos]
      refine ⟨"MINT requires issuer signature", rfl, ?_⟩
      intro _ hcontra
      exact Bool.noConfusion hcontra
    · simp only [hsig, Bool.not_true, Bool.false_eq_true, if_false, hsum]
      rw [if_pos hres]
      exact ⟨insufficientReservesMsg e total, rfl, fun _ _ => rfl⟩

/-- C6 witness: the amended statement applied to a concrete
reserve-exceeding MINT that carries the issuer signature. -/
theorem c6_witness :
    ∃ msg, process_transaction (Engine.init.set_verified_reserves 50)
        sampleDate c1Mint =
        .ok (false, msg, none, Engine.init.set_verified_reserves 50) ∧
      (_validate_mint_schema c1Mint = (true, "") →
       hasKey c1Mint.signatures "issuer" = true →
       msg = insufficientReservesMsg (Engine.init.set_verified_reserves 50)
               100000) :=
  c6_reserve_exceeding_mint_rejected (Engine.init.set_verified_reserves 50)
    sampleDate c1Mint 100000 rfl rfl (by decide)

theorem transfer_success_inversion (e : Engine) (tx : Transaction)
    (today : String) (m : String) (tid : Option String) (e' : Engine)
    (h : _process_transfer e tx today = .ok (true, m, tid, e')) :
    ∃ us input_sum output_sum,
      resolveInputs e tx.inputs = .ok us ∧
      ownersDistinct us = .ok false ∧
      valueHasKey tx.signatures (firstOwner us) = true ∧
      checkInputBlacklist e.policy_engine us = .ok none ∧
      sumUTXOAmounts us = .ok input_sum ∧
      sumOutputAmounts tx.outputs = .ok output_sum ∧
      input_sum = output_sum ∧
      transferValidateOutputs e.policy_engine tx.outputs 0 = .ok none := by
  unfold _process_transfer at h
  rcases hsch : _validate_transfer_schema tx with ⟨b0, m0⟩
  rw [hsch] at h
  cases b0
  · simp at h
  dsimp only at h
  cases hres : resolveInputs e tx.inputs
  case error => rw [hres] at h; simp at h
  case ok us =>
  rw [hres] at h
  dsimp only at h
  cases hod : ownersDistinct us
  case error => rw [hod] at h; simp at h
  case ok bd =>
  rw [hod] at h
  cases bd
  case true => simp at h
  case false =>
  dsimp only at h
  cases hsig : valueHasKey tx.signatures (firstOwner us)
  case false => simp [hsig] at h
  case true =>
  rw [hsig] at h
  rw [if_neg (by simp)] at h
  cases hbl : checkInputBlacklist e.policy_engine us
  case error => rw [hbl] at h; simp at h
  case ok obl =>
  rw [hbl] at h
  cases obl
  case some => simp at h
  case none =>
  dsimp only at h
  cases hsum1 : sumUTXOAmounts us
  case error => rw [hsum1] at h; simp at h
  case ok input_sum =>
  rw [hsum1] at h
  dsimp only at h
  cases hsum2 : sumOutputAmounts tx.outputs
  case error => rw [hsum2] at h; simp at h
  case ok output_sum =>
  rw [hsum2] at h
  dsimp only at h
  cases hco : input_sum != output_sum
  case true => rw [if_pos (by rw [hco])] at h; simp at h
  case false =>
  rw [if_neg (by rw [hco]; simp)] at h
  cases hvo : transferValidateOutputs e.policy_engine tx.outputs 0
  case error => rw [hvo] at h; simp at h
  case ok ovo =>
  rw [hvo] at h
  cases ovo
  case some => simp at h
  case none =>
  refine ⟨us, input_sum, output_sum, rfl, hod, hsig, hbl, hsum1, rfl, ?_, rfl⟩
  have := hco
  simp only [bne_eq_false_iff_eq] at this
  exact this

/-- C7 counterexample: a transfer whose input sum (100000) differs from
its output sum (40000) but lacks the sender signature is rejected with
the signature message, not the conservation error the claim promises for
any mismatch. -/
theorem c7_counterexample_mismatch_other_message :
    resSuccess (process_transaction c7Engine1 sampleDate c7Transfer) =
      some false ∧
    resolvedInputSum c7Engine1 c7Transfer.inputs = some 100000 ∧
    sumOutputAmounts c7Transfer.outputs = .ok 40000 ∧
    (100000 : Int) ≠ 40000 ∧
    resMsg (process_transaction c7Engine1 sampleDate c7Transfer) =
      some "Missing signature from owner alice" ∧
    "Missing signature from owner alice" ≠ conservationMsg 100000 40000 := by
  exact ⟨rfl, rfl, rfl, by decide, rfl, by decide⟩

/-- C7 (amended): a TRANSFER commits only when the resolved input amounts
sum exactly to the output amounts (no implicit fee); and when the checks
preceding conservation (schema, input resolution, single owner, sender
signature, blacklist) pass and the sums disagree, the transfer is
rejected with the conservation error stating both sums. -/
theorem c7_conservation :
    (∀ (e : Engine) (today m : String) (tid : Option String) (e' : Engine)
       (tx : Transaction),
       tx.type = "TRANSFER" →
       process_transaction e today tx = .ok (true, m, tid, e') →
       ∃ us s, resolveInputs e tx.inputs = .ok us ∧
         sumUTXOAmounts us = .ok s ∧ sumOutputAmounts tx.outputs = .ok s) ∧
    (∀ (e : Engine) (today : String) (tx : Transaction) (us : List UTXO)
       (input_sum output_sum : Int),
       tx.type = "TRANSFER" →
       _validate_transfer_schema tx = (true, "") →
       resolveInputs e tx.inputs = .ok us →
       ownersDistinct us = .ok false →
       valueHasKey tx.signatures (firstOwner us) = true →
       checkInputBlacklist e.policy_engine us = .ok none →
       sumUTXOAmounts us = .ok input_sum →
       sumOutputAmounts tx.outputs = .ok output_sum →
       input_sum ≠ output_sum →
       process_transaction e today tx =
         .ok (false, conservationMsg input_sum output_sum, none, e)) := by
  constructor
  · intro e today m tid e' tx htype hproc
    have hd : process_transaction e today tx = _process_transfer e tx today := by
      unfold process_transaction
      rw [htype]
      simp
    rw [hd] at hproc
    obtain ⟨us, i, o, hres, -, -, -, hsum1, hsum2, hio, -⟩ :=
      transfer_success_inversion e tx today m tid e' hproc
    exact ⟨us, i, hres, hsum1, by rw [hio]; exact hsum2⟩
  · intro e today tx us input_sum output_sum htype hsch hres hod hsig hbl
      hsum1 hsum2 hne
    have hd : process_transaction e today tx = _process_transfer e tx today := by
      unfold process_transaction
      rw [htype]
      simp
    rw [hd]
    unfold _process_transfer
    rw [hsch]
    dsimp only
    rw [hres]
    dsimp only
    rw [hod]
    dsimp only
    rw [hsig]
    rw [if_neg (by simp)]
    rw [hbl]
    dsimp only
    rw [hsum1]
    dsimp only
    rw [hsum2]
    dsimp only
    rw [if_pos (bne_iff_ne.mpr hne)]

/-- C7 witness: the amended statement applied to the concrete signed
mismatched transfer, which is rejected with the conservation error. -/
theorem c7_witness :
    process_transaction c7Engine1 sampleDate c7TransferSigned =
      .ok (false, conservationMsg 100000 40000, none, c7Engine1) :=
  c7_conservation.2 c7Engine1 sampleDate c7TransferSigned _ 100000 40000
    rfl rfl rfl rfl rfl rfl rfl rfl (by decide)

theorem validate_jurisdiction_ok_true_iff (pe : PolicyEngine) (j : Value) :
    pe.validate_jurisdiction j = .ok true ↔
    ∃ s, j = .vStr s ∧ s ∈ pe.allowed_jurisdictions := by
  cases j <;>
    simp [PolicyEngine.validate_jurisdiction, unhashable, decide_eq_true_iff]

theorem firstMissing_eq_none_iff (output : Dict) :
    firstMissing output = none ↔
    ∀ f ∈ requiredFields, (dget output f).isSome = true := by
  simp [firstMissing, List.find?_eq_none, Option.isSome_iff_ne_none,
        Option.isNone_iff_eq_none]

/-- C8: the shared output validation accepts an output specification
exactly when all required fields are present, the asset code is the
GENUSD constant, the amount is an integer in (0, MAX_UTXO_AMOUNT], the
status is literally active, the kyc_tag parses to a known non-zero KYC
level and the metadata jurisdiction is allowed; and the first failing
output rejects the enclosing MINT or TRANSFER with the index-qualified
reason. -/
theorem c8_output_validation :
    (∀ (pe : PolicyEngine) (output : Dict) (idx : Nat),
       _validate_output pe output idx = .ok (true, "") ↔
       outputConditions pe output) ∧
    (∀ (pe : PolicyEngine) (out : Dict) (rest : List Dict) (idx : Nat)
       (msg : String),
       _validate_output pe out idx = .ok (false, msg) →
       mintValidateOutputs pe (out :: rest) idx =
         .ok (some ("Output " ++ toString idx ++ ": " ++ msg)) ∧
       transferValidateOutputs pe (out :: rest) idx =
         .ok (some ("Output " ++ toString idx ++ ": " ++ msg))) ∧
    (∀ (e : Engine) (today : String) (tx : Transaction) (total : Int)
       (policy : PolicyRecord) (msg : String),
       tx.type = "MINT" →
       _validate_mint_schema tx = (true, "") →
       hasKey tx.signatures "issuer" = true →
       sumOutputAmounts tx.outputs = .ok total →
       ¬(e.total_supply + total > e.verified_reserves) →
       dget e.policy_engine.policies tx.policy_ref = some policy →
       ¬(total > policy.max_mint_per_tx) →
       mintValidateOutputs e.policy_engine tx.outputs 0 = .ok (some msg) →
       process_transaction e today tx = .ok (false, msg, none, e)) ∧
    (∀ (e : Engine) (today : String) (tx : Transaction) (us : List UTXO)
       (s : Int) (msg : String),
       tx.type = "TRANSFER" →
       _validate_transfer_schema tx = (true, "") →
       resolveInputs e tx.inputs = .ok us →
       ownersDistinct us = .ok false →
       valueHasKey tx.signatures (firstOwner us) = true →
       checkInputBlacklist e.policy_engine us = .ok none →
       sumUTXOAmounts us = .ok s →
       sumOutputAmounts tx.outputs = .ok s →
       transferValidateOutputs e.policy_engine tx.outputs 0 = .ok (some msg) →
       process_transaction e today tx = .ok (false, msg, none, e)) := by
  refine ⟨?_, ?_, ?_, ?_⟩
  · intro pe output idx
    constructor
    · intro h
      unfold _validate_output at h
      cases hfm : firstMissing output
      case some => rw [hfm] at h; simp at h
      case none =>
      rw [hfm] at h
      dsimp only at h
      cases hasset : eqStr ((dget output "asset_code").getD .vNone) ASSET_CODE
      case false => simp [hasset] at h
      case true =>
      rw [hasset] at h
      rw [if_neg (by simp)] at h
      cases hamt : asInt ((dget output "amount").getD .vNone)
      case error => rw [hamt] at h; simp at h
      case ok n =>
      rw [hamt] at h
      dsimp only at h
      by_cases hle : n ≤ 0
      · rw [if_pos hle] at h; simp at h
      rw [if_neg hle] at h
      by_cases hgt : n > MAX_UTXO_AMOUNT
      · rw [if_pos hgt] at h; simp at h
      rw [if_neg hgt] at h
      cases hstatus : eqStr ((dget output "status").getD .vNone) "active"
      · simp [hstatus] at h
      rw [hstatus] at h
      rw [if_neg (by simp)] at h
      cases hkyc : kycOfValue ((dget output "kyc_tag").getD .vNone)
      · rw [hkyc] at h; simp at h
      rename_i k
      rw [hkyc] at h
      dsimp only at h
      by_cases hk0 : k = KYCLevel.LEVEL_0
      · rw [if_pos hk0] at h; simp at h
      rw [if_neg hk0] at h
      cases hj : subscript ((dget output "metadata").getD .vNone) "jurisdiction"
      · rw [hj] at h; simp at h
      rename_i j
      rw [hj] at h
      dsimp only at h
      cases hv : pe.validate_jurisdiction j
      · rw [hv] at h; simp at h
      rename_i jOk
      rw [hv] at h
      cases jOk
      · simp at h
      obtain ⟨s0, hj0, hmem⟩ := (validate_jurisdiction_ok_true_iff pe j).mp hv
      refine ⟨(firstMissing_eq_none_iff output).mp hfm, hasset,
              ⟨n, hamt, by omega, by omega⟩, hstatus,
              ⟨k, hkyc, hk0⟩, ⟨s0, ?_, hmem⟩⟩
      rw [← hj0]
      exact hj
    · intro hc
      obtain ⟨h1, h2, ⟨n, hamt, hn0, hnmax⟩, h4, ⟨k, hkyc, hk0⟩,
              ⟨js, hj, hjmem⟩⟩ := hc
      unfold _validate_output
      rw [(firstMissing_eq_none_iff output).mpr h1]
      dsimp only
      rw [h2, if_neg (by simp)]
      rw [hamt]
      dsimp only
      rw [if_neg (by omega), if_neg (by omega)]
      rw [h4, if_neg (by simp)]
      rw [hkyc]
      dsimp only
      rw [if_neg hk0]
      rw [hj]
      dsimp only
      have hv : pe.validate_jurisdiction (.vStr js) = .ok true :=
        (validate_jurisdiction_ok_true_iff pe (.vStr js)).mpr ⟨js, rfl, hjmem⟩
      rw [hv]
      dsimp only
      rw [if_neg (by simp)]
  · intro pe out rest idx msg h
    constructor
    · unfold mintValidateOutputs
      rw [h]
    · unfold transferValidateOutputs
      rw [h]
  · intro e today tx total policy msg htype hsch hsig hsum hres hpol hmax hvo
    have hd : process_transaction e today tx = _process_mint e tx := by
      unfold process_transaction
      rw [htype]
      simp
    rw [hd]
    unfold _process_mint
    rw [hsch]
    dsimp only
    rw [hsig]
    rw [if_neg (by simp)]
    rw [hsum]
    dsimp only
    rw [if_neg hres]
    rw [hpol]
    dsimp only
    rw [if_neg hmax]
    rw [hvo]
  · intro e today tx us s msg htype hsch hres hod hsig hbl hsum1 hsum2 hvo
    have hd : process_transaction e today tx = _process_transfer e tx today := by
      unfold process_transaction
      rw [htype]
      simp
    rw [hd]
    unfold _process_transfer
    rw [hsch]
    dsimp only
    rw [hres]
    dsimp only
    rw [hod]
    dsimp only
    rw [hsig]
    rw [if_neg (by simp)]
    rw [hbl]
    dsimp only
    rw [hsum1]
    dsimp only
    rw [hsum2]
    dsimp only
    rw [if_neg (by simp)]
    rw [hvo]

/-- C8 witness: the acceptance direction of the iff at a concrete valid
output, and the index-qualified rejection at a concrete invalid output
(wrong asset code) inside a concrete rejected MINT. -/
theorem c8_witness :
    outputConditions PolicyEngine.init (mkOutput "alice" 100 "KYC_LEVEL_2") :=
  (c8_output_validation.1 PolicyEngine.init
    (mkOutput "alice" 100 "KYC_LEVEL_2") 0).mp rfl

theorem valueEq_refl (v : Value) (h : unhashable v = false) :
    valueEq v v = true := by
  cases v <;> simp_all [unhashable, valueEq]

theorem unknownPolicyMsg_ne_authMsg (s : String) :
    ("Unknown policy: " ++ s) ≠ "BURN requires issuer or owner signature" := by
  intro h
  have h2 := congrArg (fun t => t.data.head?) h
  simp [String.data_append] at h2

theorem burnMinMsg_ne_authMsg (a b : String) :
    ("Burn amount " ++ a ++ " below minimum " ++ b) ≠
      "BURN requires issuer or owner signature" := by
  intro h
  have h2 := congrArg (fun t => t.data.take 2) h
  simp [String.data_append] at h2

/-- C9: BURN authorization passes exactly when the signatures mapping
contains the issuer key or some input owner identity (mixed owners
allowed), while a TRANSFER whose resolved inputs carry more than one
distinct owner is rejected and a committed TRANSFER always carries the
single input owner identity among its signatures. -/
theorem c9_authorization :
    (∀ (sigs : List (String × String)) (us : List UTXO) (b : Bool),
       burnAuth sigs us = .ok b →
       (b = true ↔ (hasKey sigs "issuer" = true ∨
         ∃ u ∈ us, valueHasKey sigs u.owner_id = true))) ∧
    (∀ (e : Engine) (today : String) (tx : Transaction) (us : List UTXO),
       tx.type = "BURN" →
       _validate_burn_schema tx = (true, "") →
       resolveInputs e tx.inputs = .ok us →
       burnAuth tx.signatures us = .ok false →
       process_transaction e today tx =
         .ok (false, "BURN requires issuer or owner signature", none, e)) ∧
    (∀ (e : Engine) (today : String) (tx : Transaction) (us : List UTXO),
       tx.type = "BURN" →
       _validate_burn_schema tx = (true, "") →
       resolveInputs e tx.inputs = .ok us →
       burnAuth tx.signatures us = .ok true →
       ∀ (tid : Option String) (e' : Engine),
         process_transaction e today tx ≠
           .ok (false, "BURN requires issuer or owner signature", tid, e')) ∧
    (∀ (e : Engine) (today : String) (tx : Transaction) (us : List UTXO),
       tx.type = "TRANSFER" →
       _validate_transfer_schema tx = (true, "") →
       resolveInputs e tx.inputs = .ok us →
       ownersDistinct us = .ok true →
       process_transaction e today tx =
         .ok (false, "All input UTXOs must belong to the same owner",
              none, e)) ∧
    (∀ (us : List UTXO), (∀ u ∈ us, unhashable u.owner_id = false) →
       ∀ b, ownersDistinct us = .ok b →
       (b = true ↔ ∃ u ∈ us, valueEq u.owner_id (firstOwner us) = false)) ∧
    (∀ (e : Engine) (today m : String) (tid : Option String) (e' : Engine)
       (tx : Transaction),
       tx.type = "TRANSFER" →
       process_transaction e today tx = .ok (true, m, tid, e') →
       ∃ us, resolveInputs e tx.inputs = .ok us ∧
         valueHasKey tx.signatures (firstOwner us) = true) := by
  refine ⟨?_, ?_, ?_, ?_, ?_, ?_⟩
  · intro sigs us b h
    unfold burnAuth at h
    split at h
    · exact Except.noConfusion h
    · simp only [Except.ok.injEq] at h
      subst h
      simp [List.any_eq_true]
  · intro e today tx us htype hsch hres hauth
    have hd : process_transaction e today tx = _process_burn e tx := by
      unfold process_transaction
      rw [htype]
      simp
    rw [hd]
    unfold _process_burn
    rw [hsch]
    dsimp only
    rw [hres]
    dsimp only
    rw [hauth]
  · intro e today tx us htype hsch hres hauth tid e'
    have hd : process_transaction e today tx = _process_burn e tx := by
      unfold process_transaction
      rw [htype]
      simp
    rw [hd]
    unfold _process_burn
    rw [hsch]
    dsimp only
    rw [hres]
    dsimp only
    rw [hauth]
    dsimp only
    cases hpol : dget e.policy_engine.policies tx.policy_ref
    · intro hcontra
      simp only [Except.ok.injEq, Prod.mk.injEq] at hcontra
      exact unknownPolicyMsg_ne_authMsg tx.policy_ref hcontra.2.1
    · dsimp only
      cases hsum : sumUTXOAmounts us
      · intro hcontra
        exact Except.noConfusion hcontra
      · rename_i policy n
        dsimp only
        by_cases hmin : n < policy.min_burn_amount
        · rw [if_pos hmin]
          intro hcontra
          simp only [Except.ok.injEq, Prod.mk.injEq] at hcontra
          exact burnMinMsg_ne_authMsg (toString n)
            (toString policy.min_burn_amount) hcontra.2.1
        · rw [if_neg hmin]
          intro hcontra
          simp only [Except.ok.injEq, Prod.mk.injEq] at hcontra
          exact Bool.noConfusion hcontra.1
  · intro e today tx us htype hsch hres hod
    have hd : process_transaction e today tx = _process_transfer e tx today := by
      unfold process_transaction
      rw [htype]
      simp
    rw [hd]
    unfold _process_transfer
    rw [hsch]
    dsimp only
    rw [hres]
    dsimp only
    rw [hod]
  · intro us hnod b h
    unfold ownersDistinct at h
    rw [if_neg (by simp [List.any_eq_true]; intro u hu; exact hnod u hu)] at h
    cases us
    · simp only [Except.ok.injEq] at h
      subst h
      simp
    · rename_i u0 rest
      simp only [Except.ok.injEq] at h
      subst h
      simp only [List.any_eq_true, Bool.not_eq_true']
      constructor
      · rintro ⟨u, hu, hne⟩
        exact ⟨u, List.mem_cons_of_mem u0 hu, by simpa [firstOwner] using hne⟩
      · rintro ⟨u, hu, hne⟩
        rcases List.mem_cons.mp hu with hu0 | hu'
        · subst hu0
          rw [show firstOwner (u :: rest) = u.owner_id from rfl] at hne
          rw [valueEq_refl u.owner_id
                (hnod u (List.mem_cons_self u rest))] at hne
          exact Bool.noConfusion hne
        · exact ⟨u, hu', by simpa [firstOwner] using hne⟩
  · intro e today m tid e' tx htype hproc
    have hd : process_transaction e today tx = _process_transfer e tx today := by
      unfold process_transaction
      rw [htype]
      simp
    rw [hd] at hproc
    obtain ⟨us, i, o, hres, -, hsig, -, -, -, -, -⟩ :=
      transfer_success_inversion e tx today m tid e' hproc
    exact ⟨us, hres, hsig⟩

/-- C9 witness: a concrete unauthorized BURN (no issuer, no owner key)
is rejected with the authorization message. -/
theorem c9_witness :
    process_transaction c1Engine1 sampleDate (mkBurn "B9" ["T1:0"] []) =
      .ok (false, "BURN requires issuer or owner signature", none,
           c1Engine1) :=
  c9_authorization.2.1 c1Engine1 sampleDate (mkBurn "B9" ["T1:0"] []) _
    rfl rfl rfl rfl

theorem utxo_from_to (u : UTXO) : UTXO.from_dict u.to_dict = u := rfl

theorem tx_from_to (t : Transaction) : Transaction.from_dict t.to_dict = t :=
  rfl

theorem map_to_from_utxo (l : List (String × UTXO)) :
    (l.map (fun p => (p.1, p.2.to_dict))).map
      (fun p => (p.1, UTXO.from_dict p.2)) = l := by
  induction l with
  | nil => rfl
  | cons p rest ih => simp only [List.map_cons, ih, utxo_from_to]

theorem map_to_from_tx (l : List (String × Transaction)) :
    (l.map (fun p => (p.1, p.2.to_dict))).map
      (fun p => (p.1, Transaction.from_dict p.2)) = l := by
  induction l with
  | nil => rfl
  | cons p rest ih => simp only [List.map_cons, ih, tx_from_to]

/-- C10: importing an exported state restores the UTXO map, transaction
log, total_supply and verified_reserves exactly, and neither exporting
(a pure read) nor importing touches the Policy Registry: the importing
engine keeps its own policy_engine unchanged. -/
theorem c10_export_import_roundtrip (e1 e2 : Engine) :
    (e2.import_state e1.export_state).utxos = e1.utxos ∧
    (e2.import_state e1.export_state).transactions = e1.transactions ∧
    (e2.import_state e1.export_state).total_supply = e1.total_supply ∧
    (e2.import_state e1.export_state).verified_reserves =
      e1.verified_reserves ∧
    (e2.import_state e1.export_state).policy_engine = e2.policy_engine := by
  refine ⟨?_, ?_, rfl, rfl, rfl⟩
  · show (e1.utxos.map (fun p => (p.1, p.2.to_dict))).map
        (fun p => (p.1, UTXO.from_dict p.2)) = e1.utxos
    exact map_to_from_utxo e1.utxos
  · show (e1.transactions.map (fun p => (p.1, p.2.to_dict))).map
        (fun p => (p.1, Transaction.from_dict p.2)) = e1.transactions
    exact map_to_from_tx e1.transactions

end GENUSD
